import Mathlib

/-!
Verification of the parsing routes of the simba repository
(src/backend/api/parsing_routes.py), shallowly embedded in Lean 4.

The module exposes four operations:
  - get_parsers: returns the parser list reported by the parser service;
  - parse_document (SubmitParse): feature gate, document lookup, a closed
    string match dispatching to one of two Celery tasks, enqueue, wrapped in
    a blanket exception handler that re-raises any exception as a 500;
  - get_task_status (GetJobStatus): reads a Celery AsyncResult;
  - get_all_tasks (GetFleetSnapshot): four worker-inspection sub-queries in
    one protected region plus a best-effort statistics sub-query.

External collaborators (document store, Celery queue, result backend,
worker inspection) are modelled as components of an explicit environment;
the bodies of the route handlers are translated line by line from the
source.
-/

/-- A stored document record (models.simbadoc.SimbaDoc); only its identity
matters to the routes. A pydantic model instance is always truthy, so
`if not simbadoc` in the source is falsy exactly when the lookup returned
None, i.e. `Option.none` here. -/
structure SimbaDoc where
  id : String
  deriving Repr, DecidableEq

/-- A registered parser capability as reported by ParserService.get_parsers. -/
structure ParserCap where
  name : String
  deriving Repr, DecidableEq

/-- Request body of POST /parse (class ParseDocumentRequest). -/
structure ParseDocumentRequest where
  document_id : String
  parser : String
  deriving Repr, DecidableEq

/-- One unit of work written to the Celery queue by a successful
`task.delay(document_id)` call: the task name and the document id it is
tagged with. -/
structure QueueWrite where
  document_id : String
  task_name : String
  deriving Repr, DecidableEq

/-- Successful response of parse_document:
`\x7b"task_id": task.id, "status_url": f"parsing/tasks/\x7btask.id\x7d"\x7d`. -/
structure ParseResponse where
  task_id : String
  status_url : String
  deriving Repr, DecidableEq

/-- A Python exception as visible to the handlers: either a fastapi/starlette
HTTPException (status_code, detail) or some other exception with a message. -/
inductive Exc where
  | http (status_code : Nat) (detail : String)
  | other (msg : String)
  deriving Repr, DecidableEq

/-- `str(e)` for the exceptions above. Starlette HTTPException defines
`__str__` as `f"\x7bself.status_code\x7d: \x7bself.detail\x7d"`; a generic
exception stringifies to its message. -/
def strExc : Exc → String
  | Exc.http c d => toString c ++ ": " ++ d
  | Exc.other m => m

/-- The HTTPException finally surfaced to the HTTP layer by a handler. -/
structure HTTPError where
  status_code : Nat
  detail : String
  deriving Repr, DecidableEq

/-- Process environment of the parsing routes: the feature flag
(settings.features.enable_parsers), the document store (db.get_document),
the two Celery task delay operations (each either enqueues one unit of work
and returns the fresh task id, or raises with a message), and the parser
service registry consulted by get_parsers. -/
structure ApiEnv where
  enable_parsers : Bool
  get_document : String → Option SimbaDoc
  parse_markitdown_delay : String → Except String String
  parse_docling_delay : String → Except String String
  parsers : List ParserCap

/-- GET /parsers: `parser_service.get_parsers()`. -/
def get_parsers (env : ApiEnv) : List ParserCap :=
  env.parsers

/-- Body of the `try` block of parse_document: document lookup, then the
closed match on the parser string, then the enqueue. Returns the raised
exception or the response, together with the list of queue writes performed
(one per successful delay, none otherwise). -/
def parse_document_body (env : ApiEnv) (request : ParseDocumentRequest) :
    Except Exc ParseResponse × List QueueWrite :=
  match env.get_document request.document_id with
  | none => (Except.error (Exc.http 404 "Document not found"), [])
  | some _ =>
    if request.parser = "markitdown" then
      match env.parse_markitdown_delay request.document_id with
      | Except.ok tid =>
          (Except.ok ⟨tid, "parsing/tasks/" ++ tid⟩,
           [⟨request.document_id, "parse_markitdown_task"⟩])
      | Except.error m => (Except.error (Exc.other m), [])
    else if request.parser = "docling" then
      match env.parse_docling_delay request.document_id with
      | Except.ok tid =>
          (Except.ok ⟨tid, "parsing/tasks/" ++ tid⟩,
           [⟨request.document_id, "parse_docling_task"⟩])
      | Except.error m => (Except.error (Exc.other m), [])
    else (Except.error (Exc.http 400 "Unsupported parser"), [])

/-- POST /parse (parse_document): the feature gate is checked outside the
`try`, so its 501 stands; every exception raised inside the `try` —
including the deliberate 404 and 400 HTTPExceptions — is caught by
`except Exception as e` and re-raised as `HTTPException(500, str(e))`. -/
def parse_document (env : ApiEnv) (request : ParseDocumentRequest) :
    Except HTTPError ParseResponse × List QueueWrite :=
  if env.enable_parsers = false then
    (Except.error ⟨501, "Document parsing is disabled in system configuration"⟩, [])
  else
    match parse_document_body env request with
    | (Except.ok r, q) => (Except.ok r, q)
    | (Except.error e, q) => (Except.error ⟨500, strExc e⟩, q)

/-- An entry of the Celery result backend (the shared status store):
a lifecycle state string and an optional result payload. -/
structure TaskRecord where
  status : String
  result : Option String
  deriving Repr, DecidableEq

/-- The shared status store: task id → record, none when the id was never
issued or its entry has expired. -/
def StatusStore : Type := String → Option TaskRecord

/-- Celery READY_STATES: states in which AsyncResult.ready() is true. -/
def READY_STATES : List String := ["SUCCESS", "FAILURE", "REVOKED"]

/-- AsyncResult(task_id).status: the stored state, or "PENDING" when the
backend has no record of the id (Celery reports unknown ids as PENDING). -/
def asyncResult_status (store : StatusStore) (task_id : String) : String :=
  match store task_id with
  | some rec => rec.status
  | none => "PENDING"

/-- AsyncResult(task_id).result: the stored payload, none when absent. -/
def asyncResult_result (store : StatusStore) (task_id : String) : Option String :=
  match store task_id with
  | some rec => rec.result
  | none => none

/-- AsyncResult(task_id).ready(): status is one of the READY_STATES. -/
def asyncResult_ready (store : StatusStore) (task_id : String) : Bool :=
  READY_STATES.contains (asyncResult_status store task_id)

/-- Response of GET /parsing/tasks/\x7btask_id\x7d. -/
structure TaskStatusResponse where
  task_id : String
  status : String
  result : Option String
  deriving Repr, DecidableEq

/-- GET /parsing/tasks/\x7btask_id\x7d (get_task_status): a pure read of the
result backend; it unconditionally returns a response (never raises) and
returns the store unchanged — the pair makes the absence of mutation
explicit. `result` is included only when ready() is true. -/
def get_task_status (store : StatusStore) (task_id : String) :
    TaskStatusResponse × StatusStore :=
  (⟨task_id, asyncResult_status store task_id,
    if asyncResult_ready store task_id then asyncResult_result store task_id
    else none⟩,
   store)

/-- Environment of get_all_tasks: the five worker-inspection sub-queries.
Each either raises (Except.error with the message of the exception) or
answers; an answer is `none` when no worker replied (Celery Inspect methods
return None in that case) and `some payload` otherwise. The payload is kept
opaque. For stats, `Except.ok none` models a falsy reply (None or empty). -/
structure FleetEnv where
  active : Except String (Option String)
  reserved : Except String (Option String)
  scheduled : Except String (Option String)
  registered : Except String (Option String)
  stats : Except String (Option String)

/-- Response of GET /parsing/tasks: the four sub-query answers (as returned,
possibly None) and the stats entry, which is present only when the stats
sub-query succeeded with a truthy value. -/
structure TasksResponse where
  active : Option String
  reserved : Option String
  scheduled : Option String
  registered : Option String
  stats : Option String
  deriving Repr, DecidableEq

/-- GET /parsing/tasks (get_all_tasks): the four sub-queries are evaluated
in order inside a single `try`; the first exception aborts the call and is
re-raised as `HTTPException(500, str(e))`. The stats sub-query sits in its
own inner `try/except: pass`, and its value is stored only when truthy. -/
def get_all_tasks (env : FleetEnv) : Except HTTPError TasksResponse :=
  match env.active with
  | Except.error e => Except.error ⟨500, e⟩
  | Except.ok a =>
    match env.reserved with
    | Except.error e => Except.error ⟨500, e⟩
    | Except.ok r =>
      match env.scheduled with
      | Except.error e => Except.error ⟨500, e⟩
      | Except.ok s =>
        match env.registered with
        | Except.error e => Except.error ⟨500, e⟩
        | Except.ok g =>
          let st : Option String :=
            match env.stats with
            | Except.ok (some v) => some v
            | _ => none
          Except.ok ⟨a, r, s, g, st⟩

/-! ## Concrete environments used by witnesses and counterexamples -/

/-- A concrete environment in which no document exists and both delay
operations succeed with a deterministic task id. -/
def envDocAbsent : ApiEnv :=
  { enable_parsers := true
    get_document := fun _ => none
    parse_markitdown_delay := fun d => Except.ok ("tid-" ++ d)
    parse_docling_delay := fun d => Except.ok ("tid-" ++ d)
    parsers := [⟨"markitdown"⟩, ⟨"docling"⟩] }

/-- A concrete environment in which every document exists and both delay
operations succeed with a deterministic task id. -/
def envDocPresent : ApiEnv :=
  { enable_parsers := true
    get_document := fun i => some ⟨i⟩
    parse_markitdown_delay := fun d => Except.ok ("tid-" ++ d)
    parse_docling_delay := fun d => Except.ok ("tid-" ++ d)
    parsers := [⟨"markitdown"⟩, ⟨"docling"⟩] }

/-- envDocPresent with the parsing feature flag disabled. -/
def envDisabled : ApiEnv :=
  { envDocPresent with enable_parsers := false }

/-- A concrete status store holding a single terminal (SUCCESS) record for
job "job-1". -/
def storeOneSuccess : StatusStore :=
  fun task_id => if task_id = "job-1" then some ⟨"SUCCESS", some "parsed"⟩ else none

/-! ## Helper lemmas -/

/-- Queue-write accounting for the body of parse_document: a successful body
performs exactly one queue write, a raising body performs none. -/
theorem parse_document_body_queue (env : ApiEnv) (request : ParseDocumentRequest) :
    (∀ r q, parse_document_body env request = (Except.ok r, q) → q.length = 1) ∧
    (∀ e q, parse_document_body env request = (Except.error e, q) → q = []) := by
  constructor
  · intro r q hq
    unfold parse_document_body at hq
    split at hq
    · simp_all
    · split at hq
      · split at hq
        · rw [Prod.mk.injEq] at hq
          obtain ⟨-, rfl⟩ := hq
          rfl
        · simp_all
      · split at hq
        · split at hq
          · rw [Prod.mk.injEq] at hq
            obtain ⟨-, rfl⟩ := hq
            rfl
          · simp_all
        · simp_all
  · intro e q hq
    unfold parse_document_body at hq
    split at hq
    · simp_all
    · split at hq
      · split at hq <;> simp_all
      · split at hq
        · split at hq <;> simp_all
        · simp_all

/-! ## Claim theorems -/

/-- Claim C1: when the document lookup reports the document absent and the
requested parser is not one of the supported names, parse_document fails via
the not-found path and never via the unsupported-parser path: the existence
check runs first, then the capability check, then the enqueue. The surfaced
failure is the 500-wrapped not-found exception (detail "404: Document not
found"), whose detail differs from the unsupported-parser detail, and no
queue write is performed. -/
theorem C1_notfound_before_unsupported (env : ApiEnv) (request : ParseDocumentRequest)
    (hflag : env.enable_parsers = true)
    (hdoc : env.get_document request.document_id = none)
    (hm : request.parser ≠ "markitdown") (hd : request.parser ≠ "docling") :
    parse_document env request =
      (Except.error ⟨500, strExc (Exc.http 404 "Document not found")⟩, []) ∧
    strExc (Exc.http 404 "Document not found") ≠
      strExc (Exc.http 400 "Unsupported parser") := by
  constructor
  · simp [parse_document, parse_document_body, hflag, hdoc, strExc]
  · decide

/-- Witness for C1 at a concrete environment and request. -/
theorem C1_witness :
    envDocAbsent.enable_parsers = true ∧
    envDocAbsent.get_document "missing-doc" = none ∧
    parse_document envDocAbsent ⟨"missing-doc", "unknown-parser"⟩ =
      (Except.error ⟨500, strExc (Exc.http 404 "Document not found")⟩, []) :=
  ⟨rfl, rfl,
   (C1_notfound_before_unsupported envDocAbsent ⟨"missing-doc", "unknown-parser"⟩
      rfl rfl (by decide) (by decide)).1⟩

/-- Claim C4: with the feature flag disabled, parse_document fails with the
feature-disabled condition (501) and performs no document lookup, no parser
validation and no enqueue: the result is the same for every document store,
every delay behaviour and every registry (env is arbitrary apart from the
flag), and the list of queue writes is empty. -/
theorem C4_feature_disabled_no_side_effects (env : ApiEnv) (request : ParseDocumentRequest)
    (hflag : env.enable_parsers = false) :
    parse_document env request =
      (Except.error ⟨501, "Document parsing is disabled in system configuration"⟩, []) := by
  simp [parse_document, hflag]

/-- Witness for C4 at a concrete disabled environment. -/
theorem C4_witness :
    envDisabled.enable_parsers = false ∧
    parse_document envDisabled ⟨"doc-1", "markitdown"⟩ =
      (Except.error ⟨501, "Document parsing is disabled in system configuration"⟩, []) :=
  ⟨rfl, C4_feature_disabled_no_side_effects envDisabled ⟨"doc-1", "markitdown"⟩ rfl⟩

/-- Claim C7: parse_document performs exactly one queue write on every
successful call and zero queue writes on every failure path (feature
disabled, document not found, unsupported parser, dispatch failure). -/
theorem C7_enqueue_accounting (env : ApiEnv) (request : ParseDocumentRequest) :
    (∀ r q, parse_document env request = (Except.ok r, q) → q.length = 1) ∧
    (∀ e q, parse_document env request = (Except.error e, q) → q = []) := by
  constructor
  · intro r q hq
    unfold parse_document at hq
    split at hq
    · simp_all
    · split at hq
      · rename_i r2 qb heq
        rw [Prod.mk.injEq] at hq
        obtain ⟨-, rfl⟩ := hq
        exact (parse_document_body_queue env request).1 r2 qb heq
      · simp_all
  · intro e q hq
    unfold parse_document at hq
    split at hq
    · rw [Prod.mk.injEq] at hq
      exact hq.2.symm
    · split at hq
      · simp_all
      · rename_i e2 qb heq
        rw [Prod.mk.injEq] at hq
        obtain ⟨-, rfl⟩ := hq
        exact (parse_document_body_queue env request).2 e2 qb heq

/-- Witness for C7 at a concrete successful call: the computed queue has
exactly one write. -/
theorem C7_witness :
    parse_document envDocPresent ⟨"doc-1", "markitdown"⟩ =
      (Except.ok ⟨"tid-doc-1", "parsing/tasks/tid-doc-1"⟩,
       [⟨"doc-1", "parse_markitdown_task"⟩]) ∧
    ([(⟨"doc-1", "parse_markitdown_task"⟩ : QueueWrite)]).length = 1 :=
  ⟨rfl,
   (C7_enqueue_accounting envDocPresent ⟨"doc-1", "markitdown"⟩).1
     ⟨"tid-doc-1", "parsing/tasks/tid-doc-1"⟩ [⟨"doc-1", "parse_markitdown_task"⟩] rfl⟩

/-- Claim C10: the dispatch capability check of parse_document is a closed
match against exactly the literals "markitdown" and "docling": for an
existing document and any other parser name (case variants included) the
submission fails as unsupported, and the outcome is independent of the
parser registry that get_parsers reports — replacing the registry by any
list changes get_parsers but not parse_document. -/
theorem C10_closed_dispatch_match (env : ApiEnv) (request : ParseDocumentRequest)
    (doc : SimbaDoc)
    (hflag : env.enable_parsers = true)
    (hdoc : env.get_document request.document_id = some doc)
    (hm : request.parser ≠ "markitdown") (hd : request.parser ≠ "docling") :
    parse_document env request =
      (Except.error ⟨500, strExc (Exc.http 400 "Unsupported parser")⟩, []) ∧
    ∀ ps : List ParserCap,
      get_parsers { env with parsers := ps } = ps ∧
      parse_document { env with parsers := ps } request = parse_document env request := by
  refine ⟨?_, fun ps => ⟨rfl, rfl⟩⟩
  simp [parse_document, parse_document_body, hflag, hdoc, hm, hd, strExc]

/-- Witness for C10 at a concrete case-variant parser name. -/
theorem C10_witness :
    parse_document envDocPresent ⟨"doc-1", "Markitdown"⟩ =
      (Except.error ⟨500, strExc (Exc.http 400 "Unsupported parser")⟩, []) ∧
    get_parsers { envDocPresent with parsers := [⟨"docling"⟩] } = [⟨"docling"⟩] :=
  ⟨(C10_closed_dispatch_match envDocPresent ⟨"doc-1", "Markitdown"⟩ ⟨"doc-1"⟩ rfl rfl
      (by decide) (by decide)).1,
   ((C10_closed_dispatch_match envDocPresent ⟨"doc-1", "Markitdown"⟩ ⟨"doc-1"⟩ rfl rfl
      (by decide) (by decide)).2 [⟨"docling"⟩]).1⟩

/-- A concrete fleet environment in which exactly one of the four
sub-queries (reserved) raises and every other sub-query succeeds. -/
def fleetEnvReservedFails : FleetEnv :=
  { active := Except.ok (some "worker1-active")
    reserved := Except.error "worker unreachable"
    scheduled := Except.ok (some "worker1-scheduled")
    registered := Except.ok (some "worker1-registered")
    stats := Except.ok (some "worker1-stats") }

/-- A concrete fleet environment in which only the stats sub-query raises. -/
def fleetEnvStatsFails : FleetEnv :=
  { active := Except.ok (some "worker1-active")
    reserved := Except.ok (some "worker1-reserved")
    scheduled := Except.ok (some "worker1-scheduled")
    registered := Except.ok (some "worker1-registered")
    stats := Except.error "stats backend down" }

/-- Counterexample to claim C2: in a run where exactly one of the four
sub-queries (reserved) raises and the other three succeed, get_all_tasks
does not succeed with the other results — the whole call fails with a 500,
because the four sub-queries share a single protected region. -/
theorem C2_counterexample :
    fleetEnvReservedFails.reserved = Except.error "worker unreachable" ∧
    fleetEnvReservedFails.active = Except.ok (some "worker1-active") ∧
    fleetEnvReservedFails.scheduled = Except.ok (some "worker1-scheduled") ∧
    fleetEnvReservedFails.registered = Except.ok (some "worker1-registered") ∧
    get_all_tasks fleetEnvReservedFails = Except.error ⟨500, "worker unreachable"⟩ :=
  ⟨rfl, rfl, rfl, rfl, rfl⟩

/-- Claim C2 (amended): the four sub-queries of get_all_tasks are not
attempted independently — they are evaluated in order (active, reserved,
scheduled, registered) inside one protected region, and if any of them
raises, the whole call fails with a 500 carrying that failure's message;
no partial result is returned. Only the statistics sub-query is attempted
independently. -/
theorem C2_amended_single_failure_aborts (env : FleetEnv) :
    (∀ m, env.active = Except.error m → get_all_tasks env = Except.error ⟨500, m⟩) ∧
    (∀ a m, env.active = Except.ok a → env.reserved = Except.error m →
      get_all_tasks env = Except.error ⟨500, m⟩) ∧
    (∀ a r m, env.active = Except.ok a → env.reserved = Except.ok r →
      env.scheduled = Except.error m → get_all_tasks env = Except.error ⟨500, m⟩) ∧
    (∀ a r s m, env.active = Except.ok a → env.reserved = Except.ok r →
      env.scheduled = Except.ok s → env.registered = Except.error m →
      get_all_tasks env = Except.error ⟨500, m⟩) := by
  refine ⟨?_, ?_, ?_, ?_⟩ <;> intros <;> simp_all [get_all_tasks]

/-- Witness for the amended C2 at the concrete environment of the
counterexample. -/
theorem C2_amended_witness :
    get_all_tasks fleetEnvReservedFails = Except.error ⟨500, "worker unreachable"⟩ :=
  (C2_amended_single_failure_aborts fleetEnvReservedFails).2.1 (some "worker1-active")
    "worker unreachable" rfl rfl

/-- Claim C3, evaluated at the failing inputs: the document-not-found
failure and the unsupported-parser failure both surface to the caller with
status code 500 — the deliberate 404 and 400 raises are caught by the
blanket `except Exception` and re-raised as 500 — so these failure kinds
(and dispatch failures, also 500) are not distinguished by status code,
only by the human-readable detail; the feature-disabled failure alone keeps
a distinct code (501). -/
theorem C3_status_codes_collapse :
    (parse_document envDocAbsent ⟨"doc-1", "markitdown"⟩).1 =
      Except.error ⟨500, "404: Document not found"⟩ ∧
    (parse_document envDocPresent ⟨"doc-1", "unknown-parser"⟩).1 =
      Except.error ⟨500, "400: Unsupported parser"⟩ ∧
    (parse_document envDisabled ⟨"doc-1", "markitdown"⟩).1 =
      Except.error ⟨501, "Document parsing is disabled in system configuration"⟩ :=
  ⟨rfl, rfl, rfl⟩

/-- Claim C5: a job identifier with no record in the status store resolves
to a well-defined response — state "PENDING" (the state Celery reports for
unknown ids), result none — and never to an error (get_task_status is
total); moreover any two record-less identifiers (never issued or expired)
receive the same state and result, so the two cases are indistinguishable. -/
theorem C5_unknown_id_status (store : StatusStore) (task_id : String)
    (h : store task_id = none) :
    (get_task_status store task_id).1 = ⟨task_id, "PENDING", none⟩ ∧
    ∀ (store2 : StatusStore) (id2 : String), store2 id2 = none →
      ((get_task_status store2 id2).1.status = (get_task_status store task_id).1.status ∧
       (get_task_status store2 id2).1.result = (get_task_status store task_id).1.result) := by
  have hmain : ∀ (s : StatusStore) (i : String), s i = none →
      (get_task_status s i).1 = ⟨i, "PENDING", none⟩ := by
    intro s i hi
    have hstat : asyncResult_status s i = "PENDING" := by
      unfold asyncResult_status
      rw [hi]
    have hready : asyncResult_ready s i = false := by
      unfold asyncResult_ready
      rw [hstat]
      decide
    unfold get_task_status
    rw [hstat, hready]
    simp
  refine ⟨hmain store task_id h, fun s2 i2 h2 => ?_⟩
  rw [hmain store task_id h, hmain s2 i2 h2]
  exact ⟨rfl, rfl⟩

/-- Witness for C5 at a concrete store and a never-issued identifier. -/
theorem C5_witness :
    storeOneSuccess "never-issued" = none ∧
    (get_task_status storeOneSuccess "never-issued").1 =
      ⟨"never-issued", "PENDING", none⟩ :=
  ⟨by decide, (C5_unknown_id_status storeOneSuccess "never-issued" (by decide)).1⟩

/-- Claim C6: a failure of the statistics sub-query is silently absorbed by
the inner `try/except: pass` — get_all_tasks still succeeds with the four
collections and the stats field simply omitted (none), and no error is
propagated. -/
theorem C6_stats_failure_absorbed (env : FleetEnv) (a r s g : Option String) (m : String)
    (ha : env.active = Except.ok a) (hr : env.reserved = Except.ok r)
    (hs : env.scheduled = Except.ok s) (hg : env.registered = Except.ok g)
    (hst : env.stats = Except.error m) :
    get_all_tasks env = Except.ok ⟨a, r, s, g, none⟩ := by
  simp [get_all_tasks, ha, hr, hs, hg, hst]

/-- Witness for C6 at a concrete environment whose stats sub-query raises. -/
theorem C6_witness :
    get_all_tasks fleetEnvStatsFails =
      Except.ok ⟨some "worker1-active", some "worker1-reserved",
        some "worker1-scheduled", some "worker1-registered", none⟩ :=
  C6_stats_failure_absorbed fleetEnvStatsFails (some "worker1-active")
    (some "worker1-reserved") (some "worker1-scheduled") (some "worker1-registered")
    "stats backend down" rfl rfl rfl rfl rfl

/-- Claim C8: for a job identifier whose stored record is terminal (SUCCESS
or FAILURE), get_task_status leaves the status store unchanged, and a
repeated call — reading the store returned by the first call — yields an
identical response. -/
theorem C8_terminal_idempotent (store : StatusStore) (task_id : String) (rec : TaskRecord)
    (h : store task_id = some rec)
    (hterm : rec.status = "SUCCESS" ∨ rec.status = "FAILURE") :
    (get_task_status store task_id).2 = store ∧
    (get_task_status ((get_task_status store task_id).2) task_id).1 =
      (get_task_status store task_id).1 :=
  ⟨rfl, rfl⟩

/-- Witness for C8 at a concrete store with a terminal record. -/
theorem C8_witness :
    storeOneSuccess "job-1" = some ⟨"SUCCESS", some "parsed"⟩ ∧
    (get_task_status ((get_task_status storeOneSuccess "job-1").2) "job-1").1 =
      (get_task_status storeOneSuccess "job-1").1 :=
  ⟨by decide,
   (C8_terminal_idempotent storeOneSuccess "job-1" ⟨"SUCCESS", some "parsed"⟩ (by decide)
      (Or.inl rfl)).2⟩

/-- A successful body of parse_document always builds its status url by
prefixing "parsing/tasks/" to the returned task id. -/
theorem parse_document_body_url (env : ApiEnv) (request : ParseDocumentRequest)
    (r : ParseResponse) (q : List QueueWrite)
    (h : parse_document_body env request = (Except.ok r, q)) :
    r.status_url = "parsing/tasks/" ++ r.task_id := by
  unfold parse_document_body at h
  split at h
  · simp at h
  · split at h
    · split at h
      · rw [Prod.mk.injEq] at h
        obtain ⟨h1, -⟩ := h
        injection h1 with h1
        rw [← h1]
      · simp at h
    · split at h
      · split at h
        · rw [Prod.mk.injEq] at h
          obtain ⟨h1, -⟩ := h
          injection h1 with h1
          rw [← h1]
        · simp at h
      · simp at h

/-- Claim C9: a successful parse_document response carries the freshly
generated job identifier and a status location of the form
"parsing/tasks/" followed by that same identifier; get_task_status on any
identifier returns a response echoing the identifier and the stored state,
with a null result whenever the job is not in a ready (terminal) state. -/
theorem C9_response_shapes (env : ApiEnv) (request : ParseDocumentRequest)
    (resp : ParseResponse) (q : List QueueWrite)
    (h : parse_document env request = (Except.ok resp, q)) :
    resp.status_url = "parsing/tasks/" ++ resp.task_id ∧
    ∀ store : StatusStore,
      (get_task_status store resp.task_id).1.task_id = resp.task_id ∧
      (get_task_status store resp.task_id).1.status =
        asyncResult_status store resp.task_id ∧
      (asyncResult_ready store resp.task_id = false →
        (get_task_status store resp.task_id).1.result = none) := by
  constructor
  · unfold parse_document at h
    split at h
    · simp at h
    · split at h
      · rename_i r2 qb heq
        rw [Prod.mk.injEq] at h
        obtain ⟨h1, -⟩ := h
        injection h1 with h1
        subst h1
        exact parse_document_body_url env request r2 qb heq
      · simp at h
  · intro store
    refine ⟨rfl, rfl, fun hn => ?_⟩
    simp [get_task_status, hn]

/-- Witness for C9 at a concrete successful submission and a concrete store
holding no record for the returned id. -/
theorem C9_witness :
    (⟨"tid-doc-1", "parsing/tasks/tid-doc-1"⟩ : ParseResponse).status_url =
      "parsing/tasks/" ++
        (⟨"tid-doc-1", "parsing/tasks/tid-doc-1"⟩ : ParseResponse).task_id ∧
    (get_task_status storeOneSuccess "tid-doc-1").1.result = none := by
  have h := C9_response_shapes envDocPresent ⟨"doc-1", "docling"⟩
    ⟨"tid-doc-1", "parsing/tasks/tid-doc-1"⟩ [⟨"doc-1", "parse_docling_task"⟩] rfl
  exact ⟨h.1, (h.2 storeOneSuccess).2.2 (by decide)⟩
